import Mathlib

/-!
Verification development for the serial link manager of the REACH robot
controller (file REACH/Software/app.py).  The Python functions are embedded
shallowly: timestamps are rationals, the serial connection and the outcome of
each I/O attempt are explicit parameters, and the polling loops are driven by
the finite list of buffer snapshots they would observe before their timeout
expires.
-/

namespace REACH

/-- One decoded line received from the device, as appended by the listener:
the dict with a timestamp and the decoded text
(app.py line 103: serial_buffer.append with timestamp and data fields). -/
structure LineRecord where
  timestamp : ℚ
  data : String
deriving DecidableEq

/-- The grace window hard-coded inside wait_for_new_response
(app.py line 111: grace = 0.05). -/
def grace : ℚ := 5 / 100

/-- The front-to-back scan of one buffer snapshot performed on each poll of
wait_for_new_response (app.py lines 114-117): return the data of the first
record whose timestamp is at least since minus grace. -/
def scanBuffer (since : ℚ) : List LineRecord → Option String
  | [] => none
  | item :: rest =>
      if item.timestamp ≥ since - grace then some item.data
      else scanBuffer since rest

/-- The correlator wait_for_new_response (app.py lines 109-119).  The poll
loop runs while elapsed time is below the timeout; each iteration takes, under
the lock, a point-in-time copy of serial_buffer and scans it.  The embedding
is driven by the list of snapshots the successive polls observe (the length of
the list is the number of polls that fit inside the timeout); when the
snapshots are exhausted the timeout has elapsed and the sentinel string is
returned (app.py line 119). -/
def wait_for_new_response (since : ℚ) : List (List LineRecord) → String
  | [] => "No response"
  | snap :: rest =>
      match scanBuffer since snap with
      | some d => d
      | none => wait_for_new_response since rest

/-- One entry of the rolling command history
(app.py line 126: cmd, response and an ISO timestamp string). -/
structure ExchangeRecord where
  cmd : String
  response : String
  timestamp : String
deriving DecidableEq

/-- log_command (app.py lines 124-128): append the exchange record, then if
the history holds more than 50 entries drop the oldest one. -/
def log_command (history : List ExchangeRecord) (entry : ExchangeRecord) :
    List ExchangeRecord :=
  let h := history ++ [entry]
  if h.length > 50 then h.drop 1 else h

/-- The JSON bodies send_command can produce (app.py lines 175-212): an error
body carrying an HTTP status code, a parsed JSON payload passed through, or a
status/message pair. -/
inductive SendOutcome (J : Type) where
  | errorWithCode (message : String) (code : Nat)
  | jsonPayload (payload : J)
  | statusMessage (status message : String)

/-- The str.startswith test used at app.py lines 203 and 205: the first
string begins with the second. -/
def startswith (s p : String) : Bool := p.data.isPrefixOf s.data

/-- Classification of the correlated response text by send_command
(app.py lines 194-208): the sentinel becomes the no-response error; a string
that parses as JSON is passed through parsed; otherwise the ACK, ERR and
fallthrough branches.  JSON parsing belongs to the json library, outside
this code, and is embedded as the parse argument. -/
def classify_response {J : Type} (parse : String → Option J)
    (response : String) : SendOutcome J :=
  if response = "No response" then
    .statusMessage "error" "No response from robot"
  else
    match parse response with
    | some p => .jsonPayload p
    | none =>
        if startswith response "ACK" then .statusMessage "success" response
        else if startswith response "ERR" then
          .statusMessage "error" response
        else .statusMessage "unknown" response

/-- The command gateway send_command (app.py lines 175-212) after request
parsing.  ser models the global connection: none when the handle is absent,
some b when a handle exists with is_open = b (line 185).  writeOk tells
whether ser.write raises (the except branch of lines 210-212).  since is the
timestamp recorded at line 189 and snapshots drives the correlator poll loop.
The history side effect of line 192 is modelled separately by log_command. -/
def send_command {J : Type} (ser : Option Bool) (cmd : String)
    (writeOk : Bool) (since : ℚ) (snapshots : List (List LineRecord))
    (parse : String → Option J) : SendOutcome J :=
  match ser with
  | none => .errorWithCode "Serial port not available" 500
  | some isOpen =>
      if !isOpen then .errorWithCode "Serial port not available" 500
      else if !writeOk then .errorWithCode "Failed to send command" 500
      else classify_response parse (wait_for_new_response since snapshots)

/-- Append to serial_buffer, a deque with maxlen 100 (app.py line 29): when
the deque is full the oldest entries are dropped from the front. -/
def bufferAppend (buf : List LineRecord) (r : LineRecord) : List LineRecord :=
  let b := buf ++ [r]
  if b.length > 100 then b.drop (b.length - 100) else b

/-- The mutable state the listener touches: the line buffer and the global
listener_active flag (app.py lines 29-31). -/
structure ListenerState where
  buffer : List LineRecord
  listener_active : Bool
deriving DecidableEq

/-- What one iteration of the listener loop leads to: either the loop goes on
to the next iteration, or an uncaught exception escapes the while loop and the
listener thread terminates. -/
inductive ListenerStep where
  | continueLoop (st : ListenerState)
  | threadDies (st : ListenerState)
deriving DecidableEq

/-- One iteration of the serial_listener loop (app.py lines 97-107), with the
outcomes of the two I/O attempts as explicit parameters.  The body holds the
lock and checks ser and ser.in_waiting; the in_waiting probe sits outside the
try block, so an exception there escapes the while loop and kills the thread.
The readline call sits inside the try block, so an exception there is printed
and the loop continues.  A non-empty decoded line is appended to the buffer
with the current time.  No branch touches listener_active and no branch
leaves the loop normally. -/
def serial_listener_iteration (st : ListenerState) (now : ℚ)
    (serPresent : Bool) (inWaiting : Except Unit Bool)
    (readline : Except Unit String) : ListenerStep :=
  if serPresent then
    match inWaiting with
    | .error _ => .threadDies st
    | .ok false => .continueLoop st
    | .ok true =>
        match readline with
        | .error _ => .continueLoop st
        | .ok line =>
            if line ≠ "" then
              .continueLoop
                { st with buffer := bufferAppend st.buffer ⟨now, line⟩ }
            else .continueLoop st
  else .continueLoop st

/-- True when the step continues the listener loop, false when the listener
terminates. -/
def stepLoops : ListenerStep → Bool
  | .continueLoop _ => true
  | .threadDies _ => false

/-- The listener_active flag after the step. -/
def stepFlag : ListenerStep → Bool
  | .continueLoop st => st.listener_active
  | .threadDies st => st.listener_active

/-- The claim that an I/O exception raised during a listener read makes the
listener clear the liveness flag and leave its loop: at every state whose
flag is set, the iteration whose readline attempt raises ends the loop with
the flag cleared. -/
def listenerClearsFlagAndReturns : Prop :=
  ∀ (st : ListenerState) (now : ℚ), st.listener_active = true →
    stepLoops (serial_listener_iteration st now true (.ok true)
      (.error ())) = false ∧
    stepFlag (serial_listener_iteration st now true (.ok true)
      (.error ())) = false

/-- A serial handle as connect sees it: its identity plus its is_open flag
(closing a handle mutates the object in place, leaving the variable pointing
at the same, now closed, object). -/
structure Handle where
  id : Nat
  isOpen : Bool
deriving DecidableEq

/-- The JSON bodies the connect route produces. -/
inductive ConnectResult where
  | success (message : String)
  | errMsg (message : String)
  | errorWithCode (message : String) (code : Nat)
deriving DecidableEq

/-- The connect route (app.py lines 158-173) after request parsing.  port is
the requested port (none when absent, line 164); ser is the global handle;
openResult is the outcome of the serial.Serial constructor at line 170.  When
a handle is present and open it is closed first (lines 168-169); the global
is reassigned only when the constructor succeeds, so on failure it still
holds the old, now closed, handle and the error body is returned. -/
def connect (port : Option String) (ser : Option Handle)
    (openResult : Except String Handle) : Option Handle × ConnectResult :=
  match port with
  | none => (ser, .errorWithCode "No port specified" 400)
  | some p =>
      let ser1 : Option Handle :=
        match ser with
        | some h => if h.isOpen then some { h with isOpen := false } else some h
        | none => none
      match openResult with
      | .ok h => (some h, .success ("Connected to " ++ p))
      | .error e => (ser1, .errMsg e)

/-- The atomic connection and lock actions performed by the threads of
app.py, for stating which accesses happen under serial_lock. -/
inductive SAction where
  | acquire
  | release
  | probeConn
  | readConn
  | writeConn
  | bufferScan
  | bufferPush
  | oth
deriving DecidableEq

/-- The actions of one serial_listener iteration (app.py lines 97-107): the
with statement acquires the lock, the in_waiting probe and the readline read
of the connection and the buffer append happen inside it, then it releases. -/
def listener_trace : List SAction :=
  [.acquire, .probeConn, .readConn, .bufferPush, .release]

/-- The actions of the send path of send_command (app.py lines 188-191)
followed by one correlator poll (lines 113-117): the timestamp is recorded
and the command is written to the connection with no lock around them; only
the buffer scan inside wait_for_new_response takes the lock. -/
def gateway_trace : List SAction :=
  [.oth, .writeConn, .acquire, .bufferScan, .release]

/-- Tag every action of a trace with whether the lock is held when it runs,
starting from lock depth d (the acquire itself runs before the lock is held,
the release while it still is). -/
def lockedActions : List SAction → Nat → List (SAction × Bool)
  | [], _ => []
  | .acquire :: rest, d => (.acquire, d > 0) :: lockedActions rest (d + 1)
  | .release :: rest, d => (.release, d > 0) :: lockedActions rest (d - 1)
  | a :: rest, d => (a, d > 0) :: lockedActions rest d

/-- Every occurrence of action a in the trace runs while the lock is held. -/
def actionLocked (t : List SAction) (a : SAction) : Prop :=
  ∀ p ∈ lockedActions t 0, p.1 = a → p.2 = true

instance (t : List SAction) (a : SAction) : Decidable (actionLocked t a) :=
  inferInstanceAs (Decidable (∀ p ∈ lockedActions t 0, p.1 = a → p.2 = true))

/-!
Helper lemmas about the buffer scan, shared by several claim theorems.
-/

/-- The front-to-back scan agrees with List.find? on the qualifying
predicate: it yields the data of the first qualifying record. -/
theorem scanBuffer_eq_find (since : ℚ) (buf : List LineRecord) :
    scanBuffer since buf =
      (buf.find? fun r => decide (r.timestamp ≥ since - grace)).map
        LineRecord.data := by
  induction buf with
  | nil => rfl
  | cons x rest ih =>
      by_cases hx : x.timestamp ≥ since - grace
      · simp [scanBuffer, List.find?, hx]
      · simp [scanBuffer, List.find?, hx, ih]

/-- Any data returned by the scan comes from a record of the snapshot whose
timestamp qualifies. -/
theorem scanBuffer_some (since : ℚ) {buf : List LineRecord} {d : String}
    (h : scanBuffer since buf = some d) :
    ∃ r ∈ buf, r.data = d ∧ r.timestamp ≥ since - grace := by
  induction buf with
  | nil => simp [scanBuffer] at h
  | cons x rest ih =>
      by_cases hx : x.timestamp ≥ since - grace
      · refine ⟨x, by simp, ?_, hx⟩
        simpa [scanBuffer, hx] using h
      · rw [scanBuffer, if_neg hx] at h
        obtain ⟨r, hr, hd, ht⟩ := ih h
        exact ⟨r, by simp [hr], hd, ht⟩

/-- A prefix of disqualified records is skipped by the scan. -/
theorem scanBuffer_append_skip (since : ℚ) (pre rest : List LineRecord)
    (h : ∀ x ∈ pre, ¬ x.timestamp ≥ since - grace) :
    scanBuffer since (pre ++ rest) = scanBuffer since rest := by
  induction pre with
  | nil => rfl
  | cons x xs ih =>
      rw [List.cons_append, scanBuffer, if_neg (h x (by simp))]
      exact ih fun y hy => h y (by simp [hy])

/-- When no record of the static buffer qualifies, every poll fails and the
sentinel is returned. -/
theorem wait_replicate_none (since : ℚ) (buf : List LineRecord)
    (h : scanBuffer since buf = none) (n : ℕ) :
    wait_for_new_response since (List.replicate n buf) = "No response" := by
  induction n with
  | zero => rfl
  | succ m ih => simp [List.replicate_succ, wait_for_new_response, h, ih]

end REACH

namespace REACH

/-- Claim C3: queried over a static buffer with at least one poll before the
timeout, the correlator returns the data of the first record in buffer
iteration order whose timestamp is at least since minus grace (the
earliest-inserted qualifying record, List.find? on the snapshot), and the
sentinel string when no record qualifies. -/
theorem correlator_first_qualifying_or_sentinel (since : ℚ)
    (buf : List LineRecord) (n : ℕ) (hn : 0 < n) :
    wait_for_new_response since (List.replicate n buf) =
      ((buf.find? fun r => decide (r.timestamp ≥ since - grace)).map
        LineRecord.data).getD "No response" := by
  obtain ⟨m, rfl⟩ : ∃ m, n = m + 1 := ⟨n - 1, by omega⟩
  rw [← scanBuffer_eq_find, List.replicate_succ]
  cases hscan : scanBuffer since buf with
  | some d => simp [wait_for_new_response, hscan]
  | none =>
      simpa [wait_for_new_response, hscan] using
        wait_replicate_none since buf hscan m

/-- Witness for C3 at a concrete input: one poll over a one-record buffer. -/
theorem correlator_first_qualifying_or_sentinel_witness :
    wait_for_new_response 0 (List.replicate 1 [⟨1, "hello"⟩]) =
      ((List.find? (fun r => decide (r.timestamp ≥ 0 - grace))
        [⟨1, "hello"⟩]).map LineRecord.data).getD "No response" :=
  correlator_first_qualifying_or_sentinel 0 [⟨1, "hello"⟩] 1 (by decide)

/-- Claim C4: whatever the snapshots the polls observe, any non-sentinel
result of the correlator is the data of some buffered record whose timestamp
is at least since minus grace: a line observed more than grace seconds before
the query timestamp is never returned. -/
theorem correlator_grace_lower_bound (since : ℚ)
    (snapshots : List (List LineRecord))
    (h : wait_for_new_response since snapshots ≠ "No response") :
    ∃ snap ∈ snapshots, ∃ r ∈ snap,
      r.data = wait_for_new_response since snapshots ∧
      r.timestamp ≥ since - grace := by
  induction snapshots with
  | nil => exact absurd rfl h
  | cons snap rest ih =>
      cases hscan : scanBuffer since snap with
      | some d =>
          have hw : wait_for_new_response since (snap :: rest) = d := by
            simp [wait_for_new_response, hscan]
          obtain ⟨r, hr, hd, ht⟩ := scanBuffer_some since hscan
          exact ⟨snap, by simp, r, hr, by rw [hw, hd], ht⟩
      | none =>
          have hw : wait_for_new_response since (snap :: rest) =
              wait_for_new_response since rest := by
            simp [wait_for_new_response, hscan]
          rw [hw] at h ⊢
          obtain ⟨s, hs, r, hr, hd, ht⟩ := ih h
          exact ⟨s, by simp [hs], r, hr, hd, ht⟩

/-- Witness for C4 at a concrete input. -/
theorem correlator_grace_lower_bound_witness :
    ∃ snap ∈ [[(⟨1, "ACK"⟩ : LineRecord)]], ∃ r ∈ snap,
      r.data = wait_for_new_response 0 [[⟨1, "ACK"⟩]] ∧
      r.timestamp ≥ 0 - grace := by
  have h : wait_for_new_response 0 [[⟨1, "ACK"⟩]] = "ACK" := by
    norm_num [wait_for_new_response, scanBuffer, grace]
  exact correlator_grace_lower_bound 0 [[⟨1, "ACK"⟩]]
    (by rw [h]; decide)

/-- Claim C5: a line observed at time t0 sitting in the buffer is returned by
a correlator query with since at most t0 plus grace, provided every record
buffered before it fails the qualifying condition. -/
theorem correlator_returns_observed_line (since t0 : ℚ)
    (pre post : List LineRecord) (d : String) (n : ℕ) (hn : 0 < n)
    (hle : since ≤ t0 + grace)
    (hpre : ∀ x ∈ pre, ¬ x.timestamp ≥ since - grace) :
    wait_for_new_response since
      (List.replicate n (pre ++ ⟨t0, d⟩ :: post)) = d := by
  obtain ⟨m, rfl⟩ : ∃ m, n = m + 1 := ⟨n - 1, by omega⟩
  have hscan : scanBuffer since (pre ++ ⟨t0, d⟩ :: post) = some d := by
    rw [scanBuffer_append_skip since pre _ hpre, scanBuffer,
      if_pos (by linarith)]
  rw [List.replicate_succ]
  simp [wait_for_new_response, hscan]

/-- Witness for C5 at a concrete input: a disqualified earlier record, then
the observed line. -/
theorem correlator_returns_observed_line_witness :
    wait_for_new_response 1 (List.replicate 2 ([⟨0, "old"⟩] ++
      ⟨1, "ACK PING"⟩ :: [⟨2, "later"⟩])) = "ACK PING" :=
  correlator_returns_observed_line 1 1 [⟨0, "old"⟩] [⟨2, "later"⟩]
    "ACK PING" 2 (by decide) (by norm_num [grace])
    (by intro x hx; rw [List.mem_singleton] at hx; subst hx; norm_num [grace])

/-- Claim C6: a send issued while the handle is absent or not open returns
the connection-absent error body with code 500.  The result is the same for
every snapshots list and every parse function, so the correlator wait is
never entered and the call cannot block for the timeout; and that body
differs from the timeout result. -/
theorem send_disconnected_immediate {J : Type} (ser : Option Bool)
    (cmd : String) (writeOk : Bool) (since : ℚ)
    (snapshots : List (List LineRecord)) (parse : String → Option J)
    (h : ser = none ∨ ser = some false) :
    send_command ser cmd writeOk since snapshots parse =
      .errorWithCode "Serial port not available" 500 ∧
    (SendOutcome.errorWithCode "Serial port not available" 500 :
      SendOutcome J) ≠ .statusMessage "error" "No response from robot" := by
  constructor
  · rcases h with rfl | rfl <;> rfl
  · intro h'
    exact SendOutcome.noConfusion h'

/-- Witness for C6 at a concrete input: the handle is absent. -/
theorem send_disconnected_immediate_witness :
    send_command none "HOME" true 0 [] (fun _ => (none : Option Unit)) =
      .errorWithCode "Serial port not available" 500 ∧
    (SendOutcome.errorWithCode "Serial port not available" 500 :
      SendOutcome Unit) ≠ .statusMessage "error" "No response from robot" :=
  send_disconnected_immediate none "HOME" true 0 []
    (fun _ => (none : Option Unit)) (Or.inl rfl)

/-- Claim C7: when the correlator hands send_command a non-sentinel response
text, the result is the parsed JSON payload when the text parses as JSON;
otherwise the success status when it starts with ACK, the error status when
it starts with ERR, and the unknown status otherwise, each carrying the text
as message. -/
theorem send_response_classification {J : Type} (parse : String → Option J)
    (cmd : String) (since : ℚ) (snapshots : List (List LineRecord))
    (r : String) (hr : wait_for_new_response since snapshots = r)
    (hne : r ≠ "No response") :
    (∀ p, parse r = some p →
      send_command (some true) cmd true since snapshots parse =
        .jsonPayload p) ∧
    (parse r = none → startswith r "ACK" = true →
      send_command (some true) cmd true since snapshots parse =
        .statusMessage "success" r) ∧
    (parse r = none → startswith r "ACK" = false → startswith r "ERR" = true →
      send_command (some true) cmd true since snapshots parse =
        .statusMessage "error" r) ∧
    (parse r = none → startswith r "ACK" = false →
      startswith r "ERR" = false →
      send_command (some true) cmd true since snapshots parse =
        .statusMessage "unknown" r) := by
  have hsend : send_command (some true) cmd true since snapshots parse =
      classify_response parse r := by
    simp [send_command, hr]
  refine ⟨?_, ?_, ?_, ?_⟩
  · intro p hp
    rw [hsend]
    simp [classify_response, hne, hp]
  · intro hp hack
    rw [hsend]
    simp [classify_response, hne, hp, hack]
  · intro hp hack herr
    rw [hsend]
    simp [classify_response, hne, hp, hack, herr]
  · intro hp hack herr
    rw [hsend]
    simp [classify_response, hne, hp, hack, herr]

/-- Witness for C7 at the concrete scenario of the spec: command BADCMD, the
device line ERR unknown observed just after the send. -/
theorem send_response_classification_witness :
    send_command (some true) "BADCMD" true 0 [[⟨0, "ERR unknown"⟩]]
      (fun _ => (none : Option Unit)) =
      .statusMessage "error" "ERR unknown" := by
  have h : wait_for_new_response 0 [[⟨0, "ERR unknown"⟩]] = "ERR unknown" := by
    norm_num [wait_for_new_response, scanBuffer, grace]
  exact (send_response_classification (fun _ => (none : Option Unit))
    "BADCMD" 0 [[⟨0, "ERR unknown"⟩]] "ERR unknown" h (by decide)).2.2.1
    rfl (by decide) (by decide)

/-- Claim C9: the timeout sentinel is the plain string used at app.py line
119 and send_command tests the correlated text against it by equality at
line 194, so a genuine, qualifying device line whose text is exactly that
string is classified as the timeout error, identically to a genuine empty
buffer timeout. -/
theorem send_no_response_collision {J : Type} (parse : String → Option J)
    (cmd : String) (since : ℚ) (r : LineRecord)
    (hd : r.data = "No response") (hq : since ≤ r.timestamp + grace) :
    send_command (some true) cmd true since [[r]] parse =
      .statusMessage "error" "No response from robot" ∧
    send_command (some true) cmd true since [] parse =
      .statusMessage "error" "No response from robot" := by
  have hscan : scanBuffer since [r] = some r.data := by
    rw [scanBuffer, if_pos (by linarith)]
  have hw : wait_for_new_response since [[r]] = "No response" := by
    simp [wait_for_new_response, hscan, hd]
  constructor
  · simp [send_command, hw, classify_response]
  · simp [send_command, wait_for_new_response, classify_response]

/-- Witness for C9 at a concrete input: the device really answers with the
text No response. -/
theorem send_no_response_collision_witness :
    send_command (some true) "PING" true 0 [[⟨0, "No response"⟩]]
      (fun _ => (none : Option Unit)) =
      .statusMessage "error" "No response from robot" ∧
    send_command (some true) "PING" true 0 []
      (fun _ => (none : Option Unit)) =
      .statusMessage "error" "No response from robot" :=
  send_no_response_collision (fun _ => (none : Option Unit)) "PING" 0
    ⟨0, "No response"⟩ rfl (by norm_num [grace])

/-- One log_command step on a history that is the 50-entry suffix of the
records logged so far extends it to the 50-entry suffix of the records
including the new one. -/
theorem log_command_drop_step (l : List ExchangeRecord) (e : ExchangeRecord) :
    log_command (l.drop (l.length - 50)) e =
      (l ++ [e]).drop (l.length + 1 - 50) := by
  simp only [log_command]
  by_cases hk : l.length ≤ 49
  · have h1 : l.length - 50 = 0 := by omega
    have h2 : l.length + 1 - 50 = 0 := by omega
    have h3 : ¬ (l ++ [e]).length > 50 := by
      simp only [List.length_append, List.length_cons, List.length_nil]
      omega
    rw [h1, h2, List.drop_zero, List.drop_zero, if_neg h3]
  · have hlen : (l.drop (l.length - 50)).length = 50 := by
      simp only [List.length_drop]
      omega
    have hgt : ((l.drop (l.length - 50)) ++ [e]).length > 50 := by
      simp only [List.length_append, hlen, List.length_cons, List.length_nil]
      omega
    rw [if_pos hgt,
      List.drop_append_of_le_length (by rw [hlen]; omega),
      List.drop_drop,
      List.drop_append_of_le_length (by omega)]
    have : l.length - 50 + 1 = l.length + 1 - 50 := by omega
    rw [this]

/-- Logging a sequence of exchanges from the empty history keeps exactly the
most recent fifty, in insertion order. -/
theorem log_command_fold (entries : List ExchangeRecord) :
    entries.foldl log_command [] = entries.drop (entries.length - 50) := by
  induction entries using List.reverseRecOn with
  | nil => rfl
  | append_singleton es e ih =>
      rw [List.foldl_append, List.foldl_cons, List.foldl_nil, ih,
        log_command_drop_step]
      simp only [List.length_append, List.length_cons, List.length_nil]

/-- Claim C8: after any sequence of send calls, each appending one exchange
record through log_command starting from the empty history, the history
holds at most 50 entries and equals the suffix of the most recent at most 50
records in insertion order, the oldest having been evicted first. -/
theorem history_capped (entries : List ExchangeRecord) :
    (entries.foldl log_command []).length ≤ 50 ∧
    entries.foldl log_command [] = entries.drop (entries.length - 50) := by
  refine ⟨?_, log_command_fold entries⟩
  rw [log_command_fold, List.length_drop]
  omega

/-- Claim C2, counterexample: it is not the case that an I/O exception during
a listener read makes the listener clear the liveness flag and leave its
loop.  At the concrete state with an empty buffer and the flag set, a raising
readline leads to the loop continuing with the flag still set. -/
theorem listener_io_error_claim_false : ¬ listenerClearsFlagAndReturns := by
  intro h
  obtain ⟨h1, h2⟩ := h ⟨[], true⟩ 0 rfl
  simp [serial_listener_iteration, stepLoops] at h1

/-- Claim C2 as amended: an exception raised by readline is caught, the loop
continues and the whole state, liveness flag included, is unchanged; an
exception raised by the in_waiting probe propagates out of the loop and the
listener thread dies, again with the state, flag included, unchanged.  The
listener never clears the flag and never reopens the connection; only the
reconnector does either. -/
theorem listener_io_error_behavior (st : ListenerState) (now : ℚ)
    (readline : Except Unit String) :
    serial_listener_iteration st now true (.ok true) (.error ()) =
      .continueLoop st ∧
    serial_listener_iteration st now true (.error ()) readline =
      .threadDies st :=
  ⟨rfl, rfl⟩

/-- Claim C1, counterexample: the gateway write to the connection in
send_command does not run while the serial lock is held. -/
theorem gateway_write_unlocked : ¬ actionLocked gateway_trace .writeConn := by
  decide

/-- Claim C1 as amended: the listener performs its probe, its read of the
connection and its buffer append while holding the lock, and the correlator
scan invoked by the gateway holds the lock, but the write of the command to
the connection by the gateway is performed without holding the lock, so the
lock does not serialize gateway writes against listener reads. -/
theorem lock_discipline :
    actionLocked listener_trace .probeConn ∧
    actionLocked listener_trace .readConn ∧
    actionLocked listener_trace .bufferPush ∧
    actionLocked gateway_trace .bufferScan ∧
    ¬ actionLocked gateway_trace .writeConn := by
  decide

/-- Claim C10: a connect call made while a handle is open, whose open attempt
for the new port fails, returns the error body while the old handle has
already been closed; the global still references that closed handle instead
of being reset to none, and no open connection remains. -/
theorem connect_failure_leaves_closed_handle (p : String) (h : Handle)
    (e : String) (hOpen : h.isOpen = true) :
    connect (some p) (some h) (.error e) =
      (some { h with isOpen := false }, .errMsg e) ∧
    (connect (some p) (some h) (.error e)).1 ≠ none := by
  refine ⟨by simp [connect, hOpen], ?_⟩
  simp [connect, hOpen]

/-- Witness for C10 at a concrete input. -/
theorem connect_failure_leaves_closed_handle_witness :
    connect (some "COM4") (some ⟨0, true⟩) (.error "boom") =
      (some ⟨0, false⟩, .errMsg "boom") ∧
    (connect (some "COM4") (some ⟨0, true⟩) (.error "boom")).1 ≠ none :=
  connect_failure_leaves_closed_handle "COM4" ⟨0, true⟩ "boom" rfl

end REACH
